import Mathlib

/-!
Verification development for the zk-dap repository.

The embedding covers:
* the `data_access.circom` circuit (template `DataAccess`, instantiating
  circomlib's `GreaterEqThan(32)` comparator), as executed by the witness
  calculator over the bn128 scalar field;
* the `ZKDataAccess` Solidity contract (`registerResource`, `verifyAccess`),
  with reverts modelled as `Except.error` carrying the revert string;
* the public-signal vector construction of `scripts/interact.js`;
* an abstract Groth16 prover/verifier modelled from the specification, since
  the actual prover is the external snarkjs tool invoked by the scripts.
-/

/-- Order of the bn128 (BN254) scalar field, the field over which every
circom signal lives (`snarkjs powersoftau new bn128 ...`). -/
def bn128r : Nat :=
  21888242871839275222246405745257275088548364400416034343698204186575808495617

/-- Canonical field representative of a value. -/
def fmod (x : Nat) : Nat := x % bn128r

/-- Witness semantics of circomlib `Num2Bits(n)` applied to a field element:
witness generation succeeds iff the canonical representative fits in `n`
bits (the constraint `lc1 === in` is checked by the witness calculator),
and then bit `i` of the output is bit `i` of the representative.
`num2BitsOk n x` is that success condition. -/
def num2BitsOk (n x : Nat) : Bool := fmod x < 2 ^ n

/-- Bit `i` of the canonical representative of `x`, which is what
`Num2Bits` assigns to `out[i]` when it succeeds. -/
def num2BitsOut (i x : Nat) : Nat := fmod x / 2 ^ i % 2

/-- Witness semantics of circomlib `LessThan(n)`:
`n2b = Num2Bits(n+1)` is fed `in[0] + (1 << n) - in[1]` (computed in the
field), and `out <== 1 - n2b.out[n]`. `none` means witness generation
fails (the internal `Num2Bits` constraint is unsatisfiable). -/
def lessThan (n a b : Nat) : Option Nat :=
  let v := fmod a + 2 ^ n + (bn128r - fmod b)
  if num2BitsOk (n + 1) v then some (1 - num2BitsOut n v) else none

/-- Witness semantics of circomlib `GreaterEqThan(n)`:
`lt.in[0] <== in[1]`, `lt.in[1] <== in[0] + 1`, `out <== lt.out`. -/
def greaterEqThan (n a b : Nat) : Option Nat :=
  lessThan n b (a + 1)

/-- Full signal assignment of one run of the `DataAccess` template:
the three inputs, the `accessGranted` output and the pass-through
`resourceIdCheck` signal. -/
structure DataAccessWitness where
  userPermission : Nat
  requiredPermission : Nat
  resourceId : Nat
  accessGranted : Nat
  resourceIdCheck : Nat
deriving DecidableEq, Repr

/-- Witness generation for `data_access.circom` (template `DataAccess`):
`comparison = GreaterEqThan(32)` with `comparison.in[0] <== userPermission`,
`comparison.in[1] <== requiredPermission`, `accessGranted <== comparison.out`,
`resourceIdCheck <== resourceId`. Inputs are reduced into the field;
`none` models a witness-calculation failure (unsatisfiable constraint). -/
def dataAccessWitness (userPermission requiredPermission resourceId : Nat) :
    Option DataAccessWitness :=
  (greaterEqThan 32 (fmod userPermission) (fmod requiredPermission)).map
    fun out =>
      ⟨fmod userPermission, fmod requiredPermission, fmod resourceId,
        out, fmod resourceId⟩

/-- Events declared by the `ZKDataAccess` contract. -/
inductive ContractEvent where
  | ResourceRegistered (resourceId requiredPermission : Nat)
  | AccessVerified (resourceId : Nat) (accessGranted : Bool)
deriving DecidableEq, Repr

/-- Storage of the `ZKDataAccess` contract: the verifier address, the two
mappings (Solidity mappings default to `0` / `""`), and the emitted
event log. -/
structure ContractState where
  verifierContract : Nat
  resourcePermissions : Nat → Nat
  resourceData : Nat → String
  events : List ContractEvent

/-- The constructor of `ZKDataAccess`: stores the verifier address;
both mappings are empty (every key maps to the Solidity default). -/
def mkZKDataAccess (verifierAddress : Nat) : ContractState :=
  ⟨verifierAddress, fun _ => 0, fun _ => "", []⟩

/-- `ZKDataAccess.registerResource`: writes both mappings at `resourceId`
and emits `ResourceRegistered(resourceId, requiredPermission)`. -/
def registerResource (s : ContractState) (resourceId requiredPermission : Nat)
    (data : String) : ContractState :=
  { s with
    resourcePermissions := fun k =>
      if k = resourceId then requiredPermission else s.resourcePermissions k
    resourceData := fun k =>
      if k = resourceId then data else s.resourceData k
    events := s.events ++
      [ContractEvent.ResourceRegistered resourceId requiredPermission] }

/-- Number of entries of the `publicSignals` parameter of
`ZKDataAccess.verifyAccess`, declared `uint256[2]` in the source. -/
def verifyAccessSignalCount : Nat := 2

/-- `ZKDataAccess.verifyAccess`, with each Solidity `require` modelled as
`Except.error` on its revert string.  The source checks, in order:
`resourcePermissions[resourceId] > 0`,
`publicSignals[0] == resourcePermissions[resourceId]`,
`publicSignals[1] == resourceId`; it then sets
`verificationResult = true` (the placeholder in the source: the verifier
contract is never called and `proof` is never read) and returns
`(true, resourceData[resourceId])` when `verificationResult` holds,
`(false, "")` otherwise. -/
def verifyAccess (s : ContractState) (resourceId : Nat) (proof : List Nat)
    (publicSignals : Fin 2 → Nat) : Except String (Bool × String) :=
  if 0 < s.resourcePermissions resourceId then
    if publicSignals 0 = s.resourcePermissions resourceId then
      if publicSignals 1 = resourceId then
        let verificationResult := true
        if verificationResult then
          Except.ok (true, s.resourceData resourceId)
        else
          Except.ok (false, "")
      else
        Except.error "Invalid resource ID"
    else
      Except.error "Invalid required permission"
  else
    Except.error "Resource not registered"

/-- The public-signal vector built by `scripts/interact.js`
(lines 48–51): `[requiredPermission, resourceId]`, in that order. -/
def interactPublicSignals (requiredPermission resourceId : Nat) : List Nat :=
  [requiredPermission, resourceId]

/-- Modelled from the spec: the Groth16 prover of §4.4 and the matching
verifier of §4.5. The repository drives proving through the external snarkjs
CLI (`snarkjs groth16 prove`, scripts/zkdap-demo.js step 2); the prover
implementation itself is not under src/. Per the spec, a proof combines a
fresh blinding scalar drawn from the random source with the witness so that
the verification equation cancels the blinding: the proof here is the pair
(blinding commitment, blinded response) of field elements. -/
structure GrothProof where
  blindingCommitment : Nat
  response : Nat
deriving DecidableEq, Repr

/-- Modelled from the spec: `prove(witness, provingKey, randomSource)` draws
a fresh blinding scalar and emits a randomized proof; the proof encoding
depends injectively on the blinding scalar (never cached, never
deterministic across fresh randomness). -/
def prove (witnessValue blindingScalar : Nat) : GrothProof :=
  ⟨fmod blindingScalar, fmod (witnessValue + blindingScalar)⟩

/-- Modelled from the spec: `verify(proof, publicSignals, verificationKey)`
checks the algebraic relation; the relation cancels the blinding term, so it
accepts every honestly generated proof for the statement regardless of the
blinding used. -/
def verify (statement : Nat) (pf : GrothProof) : Bool :=
  fmod (pf.response + (bn128r - pf.blindingCommitment)) = fmod statement

/-- Behaviour of circomlib `GreaterEqThan(32)` on inputs inside the declared
32-bit domain: witness generation succeeds and the output is the inclusive
comparison `in[0] >= in[1]`. -/
theorem greaterEqThan_in_range (u r : Nat) (hu : u < 2 ^ 32) (hr : r < 2 ^ 32) :
    greaterEqThan 32 u r = some (if r ≤ u then 1 else 0) := by
  have hv : fmod (fmod r + 2 ^ 32 + (bn128r - fmod (u + 1)))
      = r + 2 ^ 32 - (u + 1) := by
    simp only [fmod, bn128r]
    omega
  simp only [greaterEqThan, lessThan, num2BitsOk, num2BitsOut, hv,
    decide_eq_true_eq]
  rw [if_pos (by omega : r + 2 ^ 32 - (u + 1) < 2 ^ (32 + 1))]
  by_cases h : r ≤ u
  · rw [if_pos h]
    have hd : (r + 2 ^ 32 - (u + 1)) / 2 ^ 32 % 2 = 0 := by omega
    rw [hd]
  · rw [if_neg h]
    have hd : (r + 2 ^ 32 - (u + 1)) / 2 ^ 32 % 2 = 1 := by omega
    rw [hd]

/-- The permission entry written by `registerResource` is read back at the
same key. -/
theorem registerResource_permission (s : ContractState)
    (resourceId requiredPermission : Nat) (data : String) :
    (registerResource s resourceId requiredPermission data).resourcePermissions
      resourceId = requiredPermission := by
  simp [registerResource]

/-- The data entry written by `registerResource` is read back at the same
key. -/
theorem registerResource_data (s : ContractState)
    (resourceId requiredPermission : Nat) (data : String) :
    (registerResource s resourceId requiredPermission data).resourceData
      resourceId = data := by
  simp [registerResource]

/-- C1: for a prover whose private permission (3) is below the registered
threshold (5) of resource 67890, the circuit witness indeed carries
`accessGranted = 0` — yet `verifyAccess`, called with matching public
signals, returns `granted = true` together with the stored payload, because
`verificationResult` is hardcoded `true` and the `accessGranted` signal is
never part of what the contract consumes. This evaluates the code at the
failing input of the claim. -/
theorem c1_grants_despite_insufficient_permission :
    (dataAccessWitness 3 5 67890).map DataAccessWitness.accessGranted
      = some 0 ∧
    verifyAccess
        (registerResource (mkZKDataAccess 0) 67890 5
          "This is sensitive data requiring permission level 5")
        67890 [] ![5, 67890]
      = Except.ok
          (true, "This is sensitive data requiring permission level 5") :=
  ⟨by decide, by rfl⟩

/-- C2: a public-signal vector encoding resource A's id, presented against a
distinct registered resource B — even with B's stored required permission in
position 0 — is rejected: `verifyAccess` reverts with "Invalid resource ID"
and never grants access. -/
theorem c2_cross_resource_replay_blocked (s : ContractState)
    (ridA ridB : Nat) (proof : List Nat) (ps : Fin 2 → Nat)
    (hA : 0 < s.resourcePermissions ridA)
    (hB : 0 < s.resourcePermissions ridB)
    (hne : ridA ≠ ridB)
    (hps0 : ps 0 = s.resourcePermissions ridB)
    (hps1 : ps 1 = ridA) :
    verifyAccess s ridB proof ps = Except.error "Invalid resource ID" := by
  unfold verifyAccess
  rw [if_pos hB, if_pos hps0, if_neg (by rw [hps1]; exact hne)]

/-- Witness for C2 at concrete inputs: resources 100 and 200 both registered
with threshold 5; signals for resource 100 presented against resource 200. -/
theorem c2_cross_resource_replay_blocked_witness :
    verifyAccess
      (registerResource (registerResource (mkZKDataAccess 0) 100 5 "A-data")
        200 5 "B-data")
      200 [] ![5, 100] = Except.error "Invalid resource ID" :=
  c2_cross_resource_replay_blocked _ 100 200 [] ![5, 100]
    (by decide) (by decide) (by decide) (by decide) (by decide)

/-- C3 counterexample: the public-signal vector consumed at access time has
two positions, not three — both the vector built by interact.js and the
`uint256[2]` parameter of `verifyAccess` — so it cannot be the 3-element
vector `[requiredPermission, resourceId, accessGranted]` the claim states. -/
theorem c3_counterexample :
    (interactPublicSignals 5 67890).length ≠ 3 ∧
    verifyAccessSignalCount ≠ 3 := by
  decide

/-- C3 amended: the consumed vector is the 2-element
`[requiredPermission, resourceId]` (positions 0 and 1, in that order, with
no `accessGranted` entry): interact.js builds exactly that list, its length
matches the contract's declared arity, and `verifyAccess` succeeds exactly
when position 0 equals the stored required permission and position 1 equals
the requested resource id. -/
theorem c3_two_signals_position_checked (s : ContractState)
    (resourceId : Nat) (proof : List Nat) (ps : Fin 2 → Nat)
    (hreg : 0 < s.resourcePermissions resourceId) :
    interactPublicSignals (s.resourcePermissions resourceId) resourceId
      = [s.resourcePermissions resourceId, resourceId] ∧
    (interactPublicSignals (s.resourcePermissions resourceId)
        resourceId).length = verifyAccessSignalCount ∧
    ((verifyAccess s resourceId proof ps).isOk = true ↔
      ps 0 = s.resourcePermissions resourceId ∧ ps 1 = resourceId) := by
  refine ⟨rfl, rfl, ?_⟩
  unfold verifyAccess
  rw [if_pos hreg]
  by_cases h0 : ps 0 = s.resourcePermissions resourceId
  · rw [if_pos h0]
    by_cases h1 : ps 1 = resourceId
    · rw [if_pos h1]
      simp [Except.isOk, Except.toBool, h0, h1]
    · rw [if_neg h1]
      simp [Except.isOk, Except.toBool, h0, h1]
  · rw [if_neg h0]
    simp [Except.isOk, Except.toBool, h0]

/-- Witness for C3 amended at concrete inputs. -/
theorem c3_two_signals_position_checked_witness :
    interactPublicSignals 5 67890 = [5, 67890] ∧
    (interactPublicSignals 5 67890).length = verifyAccessSignalCount ∧
    ((verifyAccess (registerResource (mkZKDataAccess 0) 67890 5 "secret")
        67890 [] ![5, 67890]).isOk = true ↔
      (![5, 67890] : Fin 2 → Nat) 0 = 5 ∧
      (![5, 67890] : Fin 2 → Nat) 1 = 67890) :=
  c3_two_signals_position_checked
    (registerResource (mkZKDataAccess 0) 67890 5 "secret") 67890 []
    ![5, 67890] (by decide)

/-- C4 counterexample: with resource 67890 registered at threshold 5, a
mismatching required-permission signal (6) makes `verifyAccess` revert with
"Invalid required permission" — an exceptional outcome, not the
non-exceptional `granted = false` result the claim states. -/
theorem c4_counterexample :
    verifyAccess (registerResource (mkZKDataAccess 0) 67890 5 "payload")
        67890 [] ![6, 67890]
      = Except.error "Invalid required permission" ∧
    (verifyAccess (registerResource (mkZKDataAccess 0) 67890 5 "payload")
        67890 [] ![6, 67890]).isOk = false :=
  ⟨by rfl, by rfl⟩

/-- C4 amended: on a registered resource, a public-signal mismatch is
detected and reported as a revert ("Invalid required permission" or
"Invalid resource ID"), never as a successful `granted = false` return; the
revert strings remain distinguishable from the structural
"Resource not registered" revert. -/
theorem c4_mismatch_reverts_distinguishably (s : ContractState)
    (resourceId : Nat) (proof : List Nat) (ps : Fin 2 → Nat)
    (hreg : 0 < s.resourcePermissions resourceId)
    (hmis : ps 0 ≠ s.resourcePermissions resourceId ∨ ps 1 ≠ resourceId) :
    (verifyAccess s resourceId proof ps
        = Except.error "Invalid required permission" ∨
      verifyAccess s resourceId proof ps
        = Except.error "Invalid resource ID") ∧
    (verifyAccess s resourceId proof ps).isOk = false ∧
    verifyAccess s resourceId proof ps
      ≠ Except.error "Resource not registered" := by
  unfold verifyAccess
  rw [if_pos hreg]
  by_cases h0 : ps 0 = s.resourcePermissions resourceId
  · have h1 : ps 1 ≠ resourceId := by tauto
    rw [if_pos h0, if_neg h1]
    refine ⟨Or.inr rfl, rfl, ?_⟩
    intro h
    exact absurd (Except.error.inj h) (by decide)
  · rw [if_neg h0]
    refine ⟨Or.inl rfl, rfl, ?_⟩
    intro h
    exact absurd (Except.error.inj h) (by decide)

/-- Witness for C4 amended at concrete inputs. -/
theorem c4_mismatch_reverts_distinguishably_witness :
    (verifyAccess (registerResource (mkZKDataAccess 0) 67890 5 "payload")
          67890 [] ![6, 67890]
        = Except.error "Invalid required permission" ∨
      verifyAccess (registerResource (mkZKDataAccess 0) 67890 5 "payload")
          67890 [] ![6, 67890]
        = Except.error "Invalid resource ID") ∧
    (verifyAccess (registerResource (mkZKDataAccess 0) 67890 5 "payload")
        67890 [] ![6, 67890]).isOk = false ∧
    verifyAccess (registerResource (mkZKDataAccess 0) 67890 5 "payload")
        67890 [] ![6, 67890]
      ≠ Except.error "Resource not registered" :=
  c4_mismatch_reverts_distinguishably
    (registerResource (mkZKDataAccess 0) 67890 5 "payload") 67890 []
    ![6, 67890] (by decide) (Or.inl (by decide))

/-- C5: for every private permission inside the 32-bit domain that is at
least the (nonzero) registered threshold — equality included — witness
generation succeeds with `accessGranted = 1`, and `verifyAccess` on the
freshly registered resource with matching public signals returns
`granted = true` together with the stored payload. -/
theorem c5_sufficient_permission_grants (s : ContractState)
    (resourceId requiredPermission userPermission : Nat) (data : String)
    (proof : List Nat) (ps : Fin 2 → Nat)
    (hpos : 0 < requiredPermission)
    (hge : requiredPermission ≤ userPermission)
    (hu : userPermission < 2 ^ 32)
    (hps0 : ps 0 = requiredPermission)
    (hps1 : ps 1 = resourceId) :
    (dataAccessWitness userPermission requiredPermission resourceId).map
        DataAccessWitness.accessGranted = some 1 ∧
    verifyAccess (registerResource s resourceId requiredPermission data)
        resourceId proof ps = Except.ok (true, data) := by
  constructor
  · have hr : requiredPermission < 2 ^ 32 := lt_of_le_of_lt hge hu
    have hfu : fmod userPermission = userPermission :=
      Nat.mod_eq_of_lt (by simp only [bn128r]; omega)
    have hfr : fmod requiredPermission = requiredPermission :=
      Nat.mod_eq_of_lt (by simp only [bn128r]; omega)
    unfold dataAccessWitness
    rw [hfu, hfr, greaterEqThan_in_range _ _ hu hr, if_pos hge]
    rfl
  · unfold verifyAccess
    rw [registerResource_permission, registerResource_data,
      if_pos hpos, if_pos hps0, if_pos hps1]
    rfl

/-- Witness for C5 at the equality boundary: permission 5 against threshold
5 on resource 67890. -/
theorem c5_sufficient_permission_grants_witness :
    (dataAccessWitness 5 5 67890).map DataAccessWitness.accessGranted
      = some 1 ∧
    verifyAccess (registerResource (mkZKDataAccess 0) 67890 5 "secret")
        67890 [] ![5, 67890] = Except.ok (true, "secret") :=
  c5_sufficient_permission_grants (mkZKDataAccess 0) 67890 5 5 "secret" []
    ![5, 67890] (by decide) (by decide) (by decide) (by decide) (by decide)

/-- C6 counterexample: `userPermission = 2^32` lies outside the declared
32-bit domain, yet witness generation succeeds — and even assigns
`accessGranted = 1` — instead of failing: there is no explicit range check
on the circuit inputs. -/
theorem c6_counterexample :
    (dataAccessWitness (2 ^ 32) 5 67890).map DataAccessWitness.accessGranted
      = some 1 := by
  decide

/-- C6 amended: witness generation performs no explicit range check on the
inputs; an out-of-domain input fails only when the comparator's internal
33-bit decomposition happens to be unsatisfiable. Concretely, with threshold
5: `userPermission = 2^32` (outside the domain) silently yields a witness
with `accessGranted = 1`, while `userPermission = bn128r - 2^32` makes
witness generation fail. -/
theorem c6_no_explicit_range_check :
    (dataAccessWitness (2 ^ 32) 5 67890).map DataAccessWitness.accessGranted
      = some 1 ∧
    dataAccessWitness (bn128r - 2 ^ 32) 5 67890 = none :=
  ⟨by decide, by decide⟩

/-- C7: for every resource id whose stored permission entry is the Solidity
default 0 (never registered), `verifyAccess` reverts with
"Resource not registered" — a surfaced structural error, not a
`granted = false` return. -/
theorem c7_unregistered_resource_reverts (s : ContractState)
    (resourceId : Nat) (proof : List Nat) (ps : Fin 2 → Nat)
    (hno : s.resourcePermissions resourceId = 0) :
    verifyAccess s resourceId proof ps
      = Except.error "Resource not registered" := by
  unfold verifyAccess
  rw [if_neg (by omega)]

/-- Witness for C7 on the freshly constructed contract. -/
theorem c7_unregistered_resource_reverts_witness :
    verifyAccess (mkZKDataAccess 0) 12345 [] ![0, 0]
      = Except.error "Resource not registered" :=
  c7_unregistered_resource_reverts (mkZKDataAccess 0) 12345 [] ![0, 0] rfl

/-- C8 (spec-modelled prover): for a fixed witness value, two `prove` calls
with distinct fresh blinding scalars yield different proofs, and `verify`
accepts both. -/
theorem c8_prove_randomized_both_verify (w r1 r2 : Nat)
    (hnd : fmod r1 ≠ fmod r2) :
    prove w r1 ≠ prove w r2 ∧
    verify (fmod w) (prove w r1) = true ∧
    verify (fmod w) (prove w r2) = true := by
  refine ⟨?_, ?_, ?_⟩
  · intro h
    exact hnd (congrArg GrothProof.blindingCommitment h)
  · simp only [verify, prove, decide_eq_true_eq, fmod, bn128r]
    omega
  · simp only [verify, prove, decide_eq_true_eq, fmod, bn128r]
    omega

/-- Witness for C8 at concrete inputs: witness value 10, blinding scalars 1
and 2. -/
theorem c8_prove_randomized_both_verify_witness :
    prove 10 1 ≠ prove 10 2 ∧
    verify (fmod 10) (prove 10 1) = true ∧
    verify (fmod 10) (prove 10 2) = true :=
  c8_prove_randomized_both_verify 10 1 2 (by decide)

/-- C9: `verifyAccess` never inspects its `proof` argument — any two byte
strings supplied as the proof produce identical results on the same state,
resource id and public signals. -/
theorem c9_proof_argument_ignored (s : ContractState) (resourceId : Nat)
    (ps : Fin 2 → Nat) (p1 p2 : List Nat) :
    verifyAccess s resourceId p1 ps = verifyAccess s resourceId p2 ps := rfl

/-- C10: registering a resource with required permission 0 is accepted and
emits `ResourceRegistered(resourceId, 0)`, yet every subsequent access
request for that resource reverts with "Resource not registered", exactly
like an unregistered resource, because the existence check is
`resourcePermissions[resourceId] > 0`. -/
theorem c10_zero_permission_resource_unreachable (s : ContractState)
    (resourceId : Nat) (data : String) (proof : List Nat)
    (ps : Fin 2 → Nat) :
    ContractEvent.ResourceRegistered resourceId 0
        ∈ (registerResource s resourceId 0 data).events ∧
    verifyAccess (registerResource s resourceId 0 data) resourceId proof ps
      = Except.error "Resource not registered" := by
  constructor
  · simp [registerResource]
  · unfold verifyAccess
    rw [if_neg (by rw [registerResource_permission]; omega)]
